import Mathlib

/-!
Shallow embedding of `src/main.py` (Aptitude Telegram Bot): the recipient
registry (`users`, `active_users`), the content fetcher (`fetch_question`,
`reset_questions`), dispatch (`send_poll_to_user`, `poll_scheduler`), the
command handlers (`start`, `stop`) and the admin HTTP endpoints
(`/webhook`, `/broadcast`, `/reset_questions`).

Modelling conventions:
* Python dicts keyed by chat id become association lists `List (Nat × _)`
  with Python-dict semantics (unique keys, insertion order, in-place update).
* Timestamps are `Nat` seconds; the source stores `datetime.isoformat()`
  strings and parses them back, which round-trips, so the `Nat` is the
  authoritative value.  `POLL_INTERVAL` is 3600 seconds.
* The upstream content API is an environment: a stream `Nat → UpResp`
  consumed one response per GET, a per-chat transport acceptance predicate
  `sendOk` (a rejected send raises `BadRequest`), and the outcome of the
  reset POST.
* `fetch_question` recurses unboundedly (line 99 of the source re-invokes
  itself after clearing `asked_questions`), so the embedding takes a fuel
  parameter; result `none` means the fuel ran out, i.e. the source call has
  not returned within that many recursion rounds.
* In the source, `start` makes `active_users[c]["asked_questions"]` and
  `users[c]["asked_questions"]` the same list object; the model keeps the
  active copy authoritative (it is the one every reader/writer on the
  modelled paths uses) and `stop` copies it back, which reproduces the
  observable behaviour of the aliasing on all operations modelled here.
-/

/-- A question payload (`_id`, `question`, `options`, `answer`, `explanation`);
an empty `explanation` models both a missing and an empty field (both falsy). -/
structure Question where
  qid : Nat
  question : String
  options : List String
  answer : String
  explanation : String
deriving DecidableEq, Repr

/-- One payload of the upstream `GET {base}/api/random` call. -/
inductive UpResp where
  /-- transport error or non-2xx status: `raise_for_status` / `RequestError`. -/
  | httpError : UpResp
  /-- payload with `message == "No more questions available! Reset needed."`. -/
  | exhausted : UpResp
  /-- a successful question payload. -/
  | item : Question → UpResp

/-- Entry of the `users` dict. -/
structure UserData where
  userId : Nat
  userName : String
  fullName : String
  askedQuestions : List Nat
deriving DecidableEq, Repr

/-- Entry of the `active_users` dict. -/
structure ActiveData where
  userId : Nat
  userName : String
  fullName : String
  lastPollTime : Nat
  askedQuestions : List Nat
deriving DecidableEq, Repr

/-- The process state: both registries plus observable effect logs
(outbound messages, delivered polls, reset POSTs, upstream GET cursor,
accumulated retry sleep, the webhook update queue). -/
structure BotState where
  users : List (Nat × UserData)
  activeUsers : List (Nat × ActiveData)
  sentMessages : List (Nat × String)
  sentPolls : List (Nat × Nat × Nat)
  resetCalls : Nat
  upCalls : Nat
  slept : Nat
  updateQueue : List Nat
deriving DecidableEq, Repr

/-- The environment: upstream responses by GET index, per-chat transport
acceptance, and whether the upstream reset POST returns 200. -/
structure Env where
  up : Nat → UpResp
  sendOk : Nat → Bool
  resetOk : Bool

/-- `RETRY_ATTEMPTS = 3`. -/
def RETRY_ATTEMPTS : Nat := 3

/-- `RETRY_DELAY = 5`. -/
def RETRY_DELAY : Nat := 5

/-- `POLL_INTERVAL = timedelta(hours=1)`, in seconds. -/
def POLL_INTERVAL : Nat := 3600

/-- Python dict lookup `d.get(k)` on an association list. -/
def lookupA (l : List (Nat × α)) (k : Nat) : Option α :=
  match l with
  | [] => none
  | (k', v) :: rest => if k' = k then some v else lookupA rest k

/-- Python dict assignment `d[k] = v`: update in place, else append. -/
def setA (l : List (Nat × α)) (k : Nat) (v : α) : List (Nat × α) :=
  match l with
  | [] => [(k, v)]
  | (k', v') :: rest => if k' = k then (k', v) :: rest else (k', v') :: setA rest k v

/-- In-place mutation of the value under a present key (no-op when absent). -/
def updateA (l : List (Nat × α)) (k : Nat) (f : α → α) : List (Nat × α) :=
  match l with
  | [] => []
  | (k', v) :: rest => if k' = k then (k', f v) :: updateA rest k f else (k', v) :: updateA rest k f

/-- Python `del d[k]`. -/
def eraseA (l : List (Nat × α)) (k : Nat) : List (Nat × α) :=
  match l with
  | [] => []
  | (k', v) :: rest => if k' = k then eraseA rest k else (k', v) :: eraseA rest k

/-- Key list of an association list. -/
def keysA (l : List (Nat × α)) : List Nat := l.map Prod.fst

/-- Python `list.index(x)`: index of the first exact match, `none` models
the `ValueError`. -/
def idxOf? : List String → String → Option Nat
  | [], _ => none
  | o :: rest, a => if o = a then some 0 else (idxOf? rest a).map (· + 1)

/-- Append an outbound `send_message` to the log. -/
def pushMsg (st : BotState) (chat : Nat) (text : String) : BotState :=
  { st with sentMessages := st.sentMessages ++ [(chat, text)] }

/-- Record a delivered `send_poll` (chat, question id, correct option id). -/
def pushPoll (st : BotState) (chat qid idx : Nat) : BotState :=
  { st with sentPolls := st.sentPolls ++ [(chat, qid, idx)] }

/-- `reset_questions` (lines 51-64): POST the upstream reset endpoint.  Every
exception and every non-200 status is caught and logged inside the function,
so the caller-visible effect is just that one POST happened, independent of
`Env.resetOk`. -/
def reset_questions (st : BotState) : BotState :=
  { st with resetCalls := st.resetCalls + 1 }

/-- Append a question id to a chat's `active_users[...]["asked_questions"]`. -/
def appendAsked (st : BotState) (chat qid : Nat) : BotState :=
  { st with
    activeUsers := updateA st.activeUsers chat
      (fun ad => { ad with askedQuestions := ad.askedQuestions ++ [qid] }) }

/-- Clear a chat's `active_users[...]["asked_questions"]` (line 98). -/
def clearAsked (st : BotState) (chat : Nat) : BotState :=
  { st with
    activeUsers := updateA st.activeUsers chat
      (fun ad => { ad with askedQuestions := [] }) }

/-- The `for attempt in range(RETRY_ATTEMPTS)` loop of `fetch_question`
(lines 67-95), `n` = remaining attempts.  Result `(some r, st)` means the
loop body executed `return` with value `r` (`some q` = the data, `none` =
the exhaustion branch returned `None` after triggering the reset);
`(none, st)` means the loop ran out of attempts. -/
def fetchLoop (env : Env) (chat : Nat) : Nat → BotState → Option (Option Question) × BotState
  | 0, st => (none, st)
  | n + 1, st =>
    match env.up st.upCalls with
    | .httpError =>
        -- exception caught, `await asyncio.sleep(RETRY_DELAY)`, next attempt
        fetchLoop env chat n
          { st with upCalls := st.upCalls + 1, slept := st.slept + RETRY_DELAY }
    | .exhausted =>
        -- "No more questions available! Reset needed.": reset, return None
        (some none, reset_questions { st with upCalls := st.upCalls + 1 })
    | .item q =>
        match lookupA st.activeUsers chat with
        | some ad =>
            if q.qid ∈ ad.askedQuestions then
              -- duplicate: `continue`, consuming one attempt
              fetchLoop env chat n { st with upCalls := st.upCalls + 1 }
            else
              (some (some q), appendAsked { st with upCalls := st.upCalls + 1 } chat q.qid)
        | none =>
            -- chat not in active_users: no dedup, no recording
            (some (some q), { st with upCalls := st.upCalls + 1 })

/-- `fetch_question(chat_id)` (lines 66-101) with recursion fuel: after the
attempt loop is exhausted, if `chat` is in `active_users` it clears that
chat's `asked_questions` and re-invokes itself (line 99) with a fresh budget
of `RETRY_ATTEMPTS`; only a chat absent from `active_users` reaches the
final `return None`.  Outer `none` = fuel exhausted (the source call is
still recursing). -/
def fetch_question (env : Env) (chat : Nat) : Nat → BotState → Option (Option Question × BotState)
  | 0, _ => none
  | fuel + 1, st =>
    match fetchLoop env chat RETRY_ATTEMPTS st with
    | (some r, st1) => some (r, st1)
    | (none, st1) =>
        if (lookupA st1.activeUsers chat).isSome then
          fetch_question env chat fuel (clearAsked st1 chat)
        else
          some (none, st1)

/-- The characters `escape_markdown` escapes (lines 45-49). -/
def escapeChars : List String :=
  ["_", "*", "[", "]", "(", ")", "~", "`", ">", "#", "+", "-", "=", "|",
   "\x7b", "\x7d", ".", "!"]

/-- `escape_markdown(text)` (lines 45-49): prefix every escape character
with a backslash, in the source's iteration order. -/
def escape_markdown (text : String) : String :=
  escapeChars.foldl (fun t c => t.replace c ("\\" ++ c)) text

/-- Text of the fallback message sent when `fetch_question` returns `None`. -/
def unableText : String :=
  "Temporarily unable to fetch questions. Please try again later."

/-- Text of the message sent from the `BadRequest` handler of
`send_poll_to_user`. -/
def pollErrorText : String :=
  "An error occurred while sending the poll. Please try again."

/-- The spoiler follow-up message built at line 134. -/
def explanationMsg (e : String) : String :=
  "Poll Explanation:\n\n||" ++ escape_markdown e ++ "||"

/-- `send_poll_to_user(chat_id, context)` (lines 103-144).  Result `none`
means the inner `fetch_question` never returned (fuel exhausted);
`some (completed, st)` is the state on return, `completed = false` meaning
an exception escaped the handler — which happens only when the transport
rejects the chat, so that the `BadRequest` handler's own `send_message`
(line 139) raises as well; every other failure (fetch `None`,
`options.index` `ValueError`) is caught inside and returns normally. -/
def send_poll_to_user (env : Env) (chat : Nat) (fuel : Nat) (st : BotState) :
    Option (Bool × BotState) :=
  match fetch_question env chat fuel st with
  | none => none
  | some (none, st1) =>
      -- `if not question_data:` send the fallback text and return
      if env.sendOk chat then some (true, pushMsg st1 chat unableText)
      else some (false, st1)
  | some (some q, st1) =>
      match idxOf? q.options q.answer with
      | none =>
          -- `options.index(correct_answer)` raises ValueError, caught at line 143
          some (true, st1)
      | some idx =>
          if env.sendOk chat then
            let st2 := pushPoll st1 chat q.qid idx
            if q.explanation ≠ "" then some (true, pushMsg st2 chat (explanationMsg q.explanation))
            else some (true, st2)
          else
            -- send_poll raises BadRequest; the handler's send_message raises too
            some (false, st1)

/-- Overwrite a chat's `active_users[...]["last_poll_time"]` (line 153);
a no-op when the chat is no longer an `active_users` key (the `KeyError`
would be caught by the per-user handler at line 154). -/
def setLastPoll (st : BotState) (chat now : Nat) : BotState :=
  { st with
    activeUsers := updateA st.activeUsers chat
      (fun ad => { ad with lastPollTime := now }) }

/-- Body of the scheduler loop for one `(chat_id, details)` snapshot entry
(lines 149-155): if due, dispatch and then stamp `last_poll_time = now`
regardless of whether the dispatch produced a poll; an exception escaping
`send_poll_to_user` skips the stamp (caught at line 154). -/
def tickOne (env : Env) (now fuel : Nat) (chat : Nat) (ad : ActiveData) (st : BotState) :
    Option BotState :=
  if POLL_INTERVAL ≤ now - ad.lastPollTime then
    match send_poll_to_user env chat fuel st with
    | none => none
    | some (true, st1) => some (setLastPoll st1 chat now)
    | some (false, st1) => some st1
  else some st

/-- The `for chat_id, details in list(active_users.items())` loop of
`poll_scheduler`, iterating over the snapshot taken at loop entry. -/
def runTick (env : Env) (now fuel : Nat) :
    List (Nat × ActiveData) → BotState → Option BotState
  | [], st => some st
  | (chat, ad) :: rest, st =>
      match tickOne env now fuel chat ad st with
      | none => none
      | some st1 => runTick env now fuel rest st1

/-- `poll_scheduler(context)` (lines 146-155). -/
def poll_scheduler (env : Env) (now fuel : Nat) (st : BotState) : Option BotState :=
  runTick env now fuel st.activeUsers st

/-- Python `user.username or "Unknown"`: `None` and `""` are falsy. -/
def orUnknown (s : Option String) : String :=
  match s with
  | some s => if s = "" then "Unknown" else s
  | none => "Unknown"

/-- Text of the subscription confirmation sent by `start` (line 183). -/
def startText : String :=
  "Polls will be sent every hour. Use /stop to stop receiving them."

/-- Text sent by `stop` to a subscribed chat (line 203). -/
def stopText : String :=
  "You will no longer receive polls, but your progress is saved."

/-- Text sent by `stop` to a chat that is not subscribed (line 208). -/
def notReceivingText : String :=
  "You are not currently receiving polls."

/-- The `asked_questions` of an optional `users` entry (absent means the
entry was just created empty). -/
def askedOf (o : Option UserData) : List Nat :=
  match o with
  | some ud => ud.askedQuestions
  | none => []

/-- The registry mutation of the `start` handler (lines 165-179): create the
`users` entry if absent (empty `asked_questions`), then overwrite the
`active_users` entry with `last_poll_time = now` and `asked_questions`
taken from the `users` entry. -/
def startRegister (chat uid : Nat) (uname : Option String) (fname : String) (now : Nat)
    (st : BotState) : BotState :=
  if (lookupA st.users chat).isSome then
    { st with
      activeUsers := setA st.activeUsers chat
        ⟨uid, orUnknown uname, fname, now, askedOf (lookupA st.users chat)⟩ }
  else
    { st with
      users := setA st.users chat ⟨uid, orUnknown uname, fname, []⟩,
      activeUsers := setA st.activeUsers chat ⟨uid, orUnknown uname, fname, now, []⟩ }

/-- The `start` handler (lines 157-192): registry mutation, confirmation
message, then one immediate dispatch.  When the transport rejects the chat
the confirmation send raises first, the blanket handler at line 186 catches
it (its own follow-up send to the same chat fails as well), and the
immediate dispatch never runs — the registry mutation stands. -/
def startHandler (env : Env) (chat uid : Nat) (uname : Option String) (fname : String)
    (now fuel : Nat) (st : BotState) : Option BotState :=
  if env.sendOk chat then
    match send_poll_to_user env chat fuel
        (pushMsg (startRegister chat uid uname fname now st) chat startText) with
    | none => none
    | some (_, st2) => some st2
  else some (startRegister chat uid uname fname now st)

/-- Copy a saved `asked_questions` list back into a chat's `users` entry
(line 200). -/
def setUsersAsked (st : BotState) (chat : Nat) (asked : List Nat) : BotState :=
  { st with
    users := updateA st.users chat (fun ud => { ud with askedQuestions := asked }) }

/-- The `stop` handler (lines 194-216): when subscribed, delete the
`active_users` entry, copy its `asked_questions` into the `users` entry and
confirm; when the `users` entry is missing the copy raises `KeyError`,
caught at line 210, after the delete already happened.  When not
subscribed, just reply. -/
def stopHandler (env : Env) (chat : Nat) (st : BotState) : BotState :=
  match lookupA st.activeUsers chat with
  | some ad =>
      match lookupA st.users chat with
      | some _ =>
          if env.sendOk chat then
            pushMsg
              (setUsersAsked { st with activeUsers := eraseA st.activeUsers chat }
                chat ad.askedQuestions) chat stopText
          else
            setUsersAsked { st with activeUsers := eraseA st.activeUsers chat }
              chat ad.askedQuestions
      | none => { st with activeUsers := eraseA st.activeUsers chat }
  | none =>
      if env.sendOk chat then pushMsg st chat notReceivingText else st

/-- A `POST /webhook` body as seen by `receive_update`: either it decodes
to an update or `request.json()` / `Update.de_json` raises. -/
inductive WebhookBody where
  | ok : Nat → WebhookBody
  | malformed : WebhookBody
deriving DecidableEq, Repr

/-- `receive_update` (lines 353-362): on successful decode, enqueue on
`application.update_queue` (when the application is initialized) and answer
200; any exception is caught and answered with status 500. -/
def receive_update (appReady : Bool) (body : WebhookBody) (st : BotState) :
    Nat × BotState :=
  match body with
  | .ok u =>
      if appReady then (200, { st with updateQueue := st.updateQueue ++ [u] })
      else (200, st)
  | .malformed => (500, st)

/-- Response of `POST /broadcast`. -/
inductive BroadcastResp where
  /-- `HTTPException(400)`: missing (or falsy) `message` field. -/
  | badRequest400 : BroadcastResp
  /-- `HTTPException(503)`: application not initialized. -/
  | unavailable503 : BroadcastResp
  /-- targeted send succeeded. -/
  | sentTo : Nat → BroadcastResp
  /-- aggregate result: success and failure counts. -/
  | completed : Nat → Nat → BroadcastResp
  /-- `HTTPException(500)`: the targeted send raised. -/
  | error500 : BroadcastResp
deriving DecidableEq, Repr

/-- The `for user_chat_id in users.keys()` loop of `broadcast_message`
(lines 382-388): per-recipient try/except, counting successes and
failures, logging each delivered message. -/
def broadcastLoop (env : Env) :
    List (Nat × UserData) → String → Nat × Nat × BotState → Nat × Nat × BotState
  | [], _, acc => acc
  | (chat, _) :: rest, msg, (s, f, st) =>
      if env.sendOk chat then broadcastLoop env rest msg (s + 1, f, pushMsg st chat msg)
      else broadcastLoop env rest msg (s, f + 1, st)

/-- `broadcast_message` (lines 364-396).  `message` is `data.get("message")`
(`none` = absent; `some ""` is falsy too, line 370). -/
def broadcast_message (appReady : Bool) (env : Env) :
    Option String → Option Nat → BotState → BroadcastResp × BotState
  | none, _, st => (.badRequest400, st)
  | some msg, target, st =>
      if msg = "" then (.badRequest400, st)
      else if ¬ appReady then (.unavailable503, st)
      else
        match target with
        | some chat =>
            if env.sendOk chat then (.sentTo chat, pushMsg st chat msg)
            else (.error500, st)
        | none =>
            match broadcastLoop env st.users msg (0, 0, st) with
            | (s, f, st1) => (.completed s f, st1)

/-- Clear every `asked_questions` in a registry map. -/
def clearAllU (l : List (Nat × UserData)) : List (Nat × UserData) :=
  l.map (fun p => (p.1, { p.2 with askedQuestions := [] }))

/-- Clear every `asked_questions` in the active map. -/
def clearAllA (l : List (Nat × ActiveData)) : List (Nat × ActiveData) :=
  l.map (fun p => (p.1, { p.2 with askedQuestions := [] }))

/-- `reset_user_questions` (lines 467-489), returning the HTTP status and
the state.  With a known `chat_id` it replaces that chat's
`asked_questions` with fresh empty lists in `users` and (if present)
`active_users` and answers 200; with no `chat_id` it clears every entry of
both maps and answers 200.  With an unknown `chat_id` it raises
`HTTPException(404)` at line 479 — but that raise sits inside the `try`
whose blanket `except Exception` (line 487) catches it and re-raises
`HTTPException(500)`, so the response on the wire is 500, not 404. -/
def reset_user_questions : Option Nat → BotState → Nat × BotState
  | some chat, st =>
      match lookupA st.users chat with
      | some _ =>
          if (lookupA st.activeUsers chat).isSome then
            (200, { st with
              users := updateA st.users chat (fun ud => { ud with askedQuestions := [] }),
              activeUsers := updateA st.activeUsers chat
                (fun ad => { ad with askedQuestions := [] }) })
          else (200, setUsersAsked st chat [])
      | none => (500, st)
  | none, st =>
      (200, { st with users := clearAllU st.users, activeUsers := clearAllA st.activeUsers })

/-- One inbound operation against the shared registries, for the
registry-shape invariant: the two bot commands, one scheduler tick, a bare
fetch, and the three admin endpoints. -/
inductive Op where
  | opStart : Nat → Nat → Option String → String → Nat → Op
  | opStop : Nat → Op
  | opTick : Nat → Op
  | opFetch : Nat → Op
  | opBroadcast : Option String → Option Nat → Op
  | opReset : Option Nat → Op
  | opWebhook : WebhookBody → Op

/-- Run one operation (post-startup, application initialized).  `none`
propagates a `fetch_question` call that never returns. -/
def step (env : Env) (fuel : Nat) (op : Op) (st : BotState) : Option BotState :=
  match op with
  | .opStart chat uid un fn now => startHandler env chat uid un fn now fuel st
  | .opStop chat => some (stopHandler env chat st)
  | .opTick now => poll_scheduler env now fuel st
  | .opFetch chat => (fetch_question env chat fuel st).map Prod.snd
  | .opBroadcast m t => some (broadcast_message true env m t st).2
  | .opReset t => some (reset_user_questions t st).2
  | .opWebhook b => some (receive_update true b st).2

/-! ### Concrete fixtures used by counterexamples and witnesses -/

/-- A fresh question with id 7 whose answer matches an option. -/
def q7 : Question := ⟨7, "Q7", ["a", "b"], "a", ""⟩

/-- A question with id 5, matching the id already in `st0`'s history. -/
def q5 : Question := ⟨5, "Q5", ["a", "b"], "b", ""⟩

/-- A question whose `answer` appears in none of its `options`. -/
def qBad : Question := ⟨9, "Q9", ["a", "b"], "zz", ""⟩

/-- `users` entry for chat 1 with one seen item, id 5. -/
def ud5 : UserData := ⟨10, "u", "U", [5]⟩

/-- `active_users` entry for chat 1: last dispatch at time 0, seen item 5. -/
def ad5 : ActiveData := ⟨10, "u", "U", 0, [5]⟩

/-- Base state: chat 1 registered and active, empty logs. -/
def st0 : BotState := ⟨[(1, ud5)], [(1, ad5)], [], [], 0, 0, 0, []⟩

/-- Upstream that fails every GET; transport accepts everyone. -/
def envErr : Env := ⟨fun _ => .httpError, fun _ => true, true⟩

/-- Upstream that answers the exhaustion sentinel on every GET. -/
def envExh : Env := ⟨fun _ => .exhausted, fun _ => true, true⟩

/-- Upstream that always serves the fresh question `q7`. -/
def envQ7 : Env := ⟨fun _ => .item q7, fun _ => true, true⟩

/-- Upstream that always serves `q5`, a duplicate of `st0`'s history. -/
def envQ5 : Env := ⟨fun _ => .item q5, fun _ => true, true⟩

/-- Upstream that always serves the mismatched question `qBad`. -/
def envBad : Env := ⟨fun _ => .item qBad, fun _ => true, true⟩

/-- Upstream: three transport failures, then `q7` forever. -/
def env2 : Env := ⟨fun n => if n < 3 then .httpError else .item q7, fun _ => true, true⟩

/-- Three registered users (chats 1, 2, 3) of which only chat 2's transport
rejects delivery; nobody is active. -/
def st3 : BotState := ⟨[(1, ud5), (2, ud5), (3, ud5)], [], [], [], 0, 0, 0, []⟩

/-- Transport that rejects chat 2 and accepts everyone else. -/
def envRej2 : Env := ⟨fun _ => .item q7, fun c => c ≠ 2, true⟩

/-! ### Association-list lemmas -/

/-- `lookupA` after an in-place value update. -/
theorem lookupA_updateA (k : Nat) (f : α → α) :
    ∀ (l : List (Nat × α)) (c : Nat),
      lookupA (updateA l k f) c = if c = k then (lookupA l c).map f else lookupA l c := by
  intro l
  induction l with
  | nil => intro c; by_cases hc : c = k <;> simp [updateA, lookupA, hc]
  | cons p rest ih =>
      intro c
      obtain ⟨k', v⟩ := p
      by_cases hk : k' = k <;> by_cases hc : k' = c
      · subst hk; subst hc
        simp [updateA, lookupA]
      · subst hk
        have hck : ¬ c = k' := fun e => hc e.symm
        simp [updateA, lookupA, hc, hck, ih c]
      · subst hc
        simp [updateA, lookupA, hk]
      · simp [updateA, lookupA, hk, hc, ih c]

/-- `lookupA` after a dict assignment. -/
theorem lookupA_setA (k : Nat) (v : α) :
    ∀ (l : List (Nat × α)) (c : Nat),
      lookupA (setA l k v) c = if c = k then some v else lookupA l c := by
  intro l
  induction l with
  | nil =>
      intro c
      by_cases hc : c = k
      · simp [setA, lookupA, hc]
      · have hck : ¬ k = c := fun e => hc e.symm
        simp [setA, lookupA, hc, hck]
  | cons p rest ih =>
      intro c
      obtain ⟨k', v'⟩ := p
      by_cases hk : k' = k <;> by_cases hc : k' = c
      · subst hk; subst hc
        simp [setA, lookupA]
      · subst hk
        have hck : ¬ c = k' := fun e => hc e.symm
        simp [setA, lookupA, hc, hck]
      · subst hc
        simp [setA, lookupA, hk]
      · simp [setA, lookupA, hk, hc, ih c]

/-- `lookupA` after a deletion. -/
theorem lookupA_eraseA (k : Nat) :
    ∀ (l : List (Nat × α)) (c : Nat),
      lookupA (eraseA l k) c = if c = k then none else lookupA l c := by
  intro l
  induction l with
  | nil => intro c; by_cases hc : c = k <;> simp [eraseA, lookupA, hc]
  | cons p rest ih =>
      intro c
      obtain ⟨k', v⟩ := p
      by_cases hk : k' = k <;> by_cases hc : k' = c
      · subst hk; subst hc
        simp [eraseA, lookupA, ih]
      · subst hk
        have hck : ¬ c = k' := fun e => hc e.symm
        simp [eraseA, lookupA, hc, hck, ih c]
      · subst hc
        simp [eraseA, lookupA, hk]
      · simp [eraseA, lookupA, hk, hc, ih c]

/-- `lookupA` through a value-only map on `users` entries. -/
theorem lookupA_clearAllU :
    ∀ (l : List (Nat × UserData)) (c : Nat),
      lookupA (clearAllU l) c = (lookupA l c).map (fun ud => { ud with askedQuestions := [] }) := by
  intro l
  induction l with
  | nil => intro c; simp [clearAllU, lookupA]
  | cons p rest ih =>
      intro c
      obtain ⟨k', v⟩ := p
      by_cases hc : k' = c
      · simp [clearAllU, lookupA, hc]
      · simpa [clearAllU, lookupA, hc] using ih c

/-- `lookupA` through a value-only map on `active_users` entries. -/
theorem lookupA_clearAllA :
    ∀ (l : List (Nat × ActiveData)) (c : Nat),
      lookupA (clearAllA l) c = (lookupA l c).map (fun ad => { ad with askedQuestions := [] }) := by
  intro l
  induction l with
  | nil => intro c; simp [clearAllA, lookupA]
  | cons p rest ih =>
      intro c
      obtain ⟨k', v⟩ := p
      by_cases hc : k' = c
      · simp [clearAllA, lookupA, hc]
      · simpa [clearAllA, lookupA, hc] using ih c

/-- Updating a value never changes which keys are present. -/
theorem lookupA_updateA_isSome (k : Nat) (f : α → α) (l : List (Nat × α)) (c : Nat) :
    (lookupA (updateA l k f) c).isSome = (lookupA l c).isSome := by
  rw [lookupA_updateA]
  by_cases hc : c = k <;> simp [hc]

/-! ### Frame lemmas for the fetcher -/

/-- The attempt loop never touches `users`, never adds or removes
`active_users` keys, and sends nothing. -/
theorem fetchLoop_frame (env : Env) (chat : Nat) :
    ∀ (n : Nat) (st : BotState),
      ((fetchLoop env chat n st).2).users = st.users ∧
      (∀ c, (lookupA ((fetchLoop env chat n st).2).activeUsers c).isSome =
        (lookupA st.activeUsers c).isSome) ∧
      ((fetchLoop env chat n st).2).sentPolls = st.sentPolls ∧
      ((fetchLoop env chat n st).2).sentMessages = st.sentMessages ∧
      ((fetchLoop env chat n st).2).updateQueue = st.updateQueue := by
  intro n
  induction n with
  | zero => intro st; simp [fetchLoop]
  | succ n ih =>
      intro st
      cases hresp : env.up st.upCalls with
      | httpError => simpa [fetchLoop, hresp] using ih _
      | exhausted => simp [fetchLoop, hresp, reset_questions]
      | item q =>
          cases hl : lookupA st.activeUsers chat with
          | none => simp [fetchLoop, hresp, hl]
          | some ad =>
              by_cases hdup : q.qid ∈ ad.askedQuestions
              · simpa [fetchLoop, hresp, hl, hdup] using ih _
              · simp [fetchLoop, hresp, hl, hdup, appendAsked, lookupA_updateA_isSome]

/-- If the attempt loop does not return an item, it leaves `active_users`
entirely unchanged (only counters and logs move). -/
theorem fetchLoop_noitem (env : Env) (chat : Nat) :
    ∀ (n : Nat) (st : BotState),
      (∀ q, (fetchLoop env chat n st).1 ≠ some (some q)) →
      ((fetchLoop env chat n st).2).activeUsers = st.activeUsers := by
  intro n
  induction n with
  | zero => intro st _; simp [fetchLoop]
  | succ n ih =>
      intro st hno
      cases hresp : env.up st.upCalls with
      | httpError =>
          have := ih { st with upCalls := st.upCalls + 1, slept := st.slept + RETRY_DELAY }
          simp [fetchLoop, hresp] at hno ⊢
          exact this hno
      | exhausted => simp [fetchLoop, hresp, reset_questions]
      | item q =>
          cases hl : lookupA st.activeUsers chat with
          | none =>
              exfalso
              exact hno q (by simp [fetchLoop, hresp, hl])
          | some ad =>
              by_cases hdup : q.qid ∈ ad.askedQuestions
              · have := ih { st with upCalls := st.upCalls + 1 }
                simp [fetchLoop, hresp, hl, hdup] at hno ⊢
                exact this hno
              · exfalso
                exact hno q (by simp [fetchLoop, hresp, hl, hdup])

/-- When the attempt loop returns an item for a chat present in
`active_users`, the item's id was absent from that chat's history at loop
entry and has been appended to it on return. -/
theorem fetchLoop_item_spec (env : Env) (chat : Nat) :
    ∀ (n : Nat) (st : BotState) (q : Question) (st' : BotState) (ad : ActiveData),
      lookupA st.activeUsers chat = some ad →
      fetchLoop env chat n st = (some (some q), st') →
      q.qid ∉ ad.askedQuestions ∧
      lookupA st'.activeUsers chat =
        some { ad with askedQuestions := ad.askedQuestions ++ [q.qid] } := by
  intro n
  induction n with
  | zero => intro st q st' ad _ h; simp [fetchLoop] at h
  | succ n ih =>
      intro st q st' ad had h
      cases hresp : env.up st.upCalls with
      | httpError =>
          simp only [fetchLoop, hresp] at h
          exact ih _ q st' ad (by simpa using had) h
      | exhausted => simp [fetchLoop, hresp] at h
      | item q' =>
          simp only [fetchLoop, hresp, had] at h
          by_cases hdup : q'.qid ∈ ad.askedQuestions
          · rw [if_pos hdup] at h
            exact ih _ q st' ad (by simpa using had) h
          · rw [if_neg hdup] at h
            simp only [Prod.mk.injEq, Option.some.injEq] at h
            obtain ⟨hq, hst⟩ := h
            subst hq
            subst hst
            constructor
            · exact hdup
            · simp [appendAsked, lookupA_updateA, had]

/-- When `fetch_question` returns, it has not touched `users`, has not
added or removed `active_users` keys, and has sent nothing. -/
theorem fetch_question_frame (env : Env) (chat : Nat) :
    ∀ (fuel : Nat) (st : BotState) (r : Option Question) (st' : BotState),
      fetch_question env chat fuel st = some (r, st') →
      st'.users = st.users ∧
      (∀ c, (lookupA st'.activeUsers c).isSome = (lookupA st.activeUsers c).isSome) ∧
      st'.sentPolls = st.sentPolls ∧
      st'.sentMessages = st.sentMessages ∧
      st'.updateQueue = st.updateQueue := by
  intro fuel
  induction fuel with
  | zero => intro st r st' h; simp [fetch_question] at h
  | succ fuel ih =>
      intro st r st' h
      rw [fetch_question] at h
      split at h
      · -- the loop returned a value
        next ores st1 r1 heq =>
          obtain ⟨hu, ha, hp, hm, hq⟩ := fetchLoop_frame env chat RETRY_ATTEMPTS st
          rw [heq] at hu ha hp hm hq
          simp only [Option.some.injEq, Prod.mk.injEq] at h
          obtain ⟨_, hst⟩ := h
          subst hst
          exact ⟨hu, ha, hp, hm, hq⟩
      · -- the loop exhausted its attempts
        next ores st1 heq =>
          obtain ⟨hu, ha, hp, hm, hq⟩ := fetchLoop_frame env chat RETRY_ATTEMPTS st
          rw [heq] at hu ha hp hm hq
          split at h
          · obtain ⟨hu2, ha2, hp2, hm2, hq2⟩ := ih (clearAsked st1 chat) r st' h
            refine ⟨?_, ?_, ?_, ?_, ?_⟩
            · rw [hu2]; simpa [clearAsked] using hu
            · intro c
              rw [ha2 c]
              simpa [clearAsked, lookupA_updateA_isSome] using ha c
            · rw [hp2]; simpa [clearAsked] using hp
            · rw [hm2]; simpa [clearAsked] using hm
            · rw [hq2]; simpa [clearAsked] using hq
          · simp only [Option.some.injEq, Prod.mk.injEq] at h
            obtain ⟨_, hst⟩ := h
            subst hst
            exact ⟨hu, ha, hp, hm, hq⟩

/-- Dedup behaviour of `fetch_question` for a chat in `active_users`: a
returned item's id is the last entry of the history on return and was not
in the history it was checked against; the automatic clear on budget
exhaustion may replace the pre-call history, so this checked history is in
general not the one at the time of the call. -/
theorem fetch_question_item_spec (env : Env) (chat : Nat) :
    ∀ (fuel : Nat) (st : BotState) (q : Question) (st' : BotState),
      (lookupA st.activeUsers chat).isSome →
      fetch_question env chat fuel st = some (some q, st') →
      ∃ ad l, lookupA st'.activeUsers chat = some ad ∧
        ad.askedQuestions = l ++ [q.qid] ∧ q.qid ∉ l := by
  intro fuel
  induction fuel with
  | zero => intro st q st' _ h; simp [fetch_question] at h
  | succ fuel ih =>
      intro st q st' hact h
      rw [fetch_question] at h
      split at h
      · -- the loop returned a value, which must be `some q`
        next ores st1 r1 heq =>
          simp only [Option.some.injEq, Prod.mk.injEq] at h
          obtain ⟨hr, hst⟩ := h
          subst hr
          subst hst
          obtain ⟨ad, had⟩ := Option.isSome_iff_exists.mp hact
          obtain ⟨hnotin, hafter⟩ := fetchLoop_item_spec env chat RETRY_ATTEMPTS st q _ ad had heq
          exact ⟨{ ad with askedQuestions := ad.askedQuestions ++ [q.qid] },
            ad.askedQuestions, hafter, rfl, hnotin⟩
      · -- the loop exhausted its attempts; the chat is still active, so clear and recurse
        next ores st1 heq =>
          have hact1 : (lookupA st1.activeUsers chat).isSome := by
            have := (fetchLoop_frame env chat RETRY_ATTEMPTS st).2.1 chat
            rw [heq] at this
            rw [this]
            exact hact
          rw [if_pos hact1] at h
          have hact2 : (lookupA (clearAsked st1 chat).activeUsers chat).isSome := by
            simpa [clearAsked, lookupA_updateA_isSome] using hact1
          exact ih (clearAsked st1 chat) q st' hact2 h

/-- When `send_poll_to_user` returns, `users` is untouched and the
`active_users` key set is unchanged. -/
theorem send_poll_frame (env : Env) (chat fuel : Nat) (st : BotState) (b : Bool)
    (st' : BotState) (h : send_poll_to_user env chat fuel st = some (b, st')) :
    st'.users = st.users ∧
    (∀ c, (lookupA st'.activeUsers c).isSome = (lookupA st.activeUsers c).isSome) := by
  rw [send_poll_to_user] at h
  split at h
  · exact absurd h (by simp)
  · -- fetch returned None
    next st1 heq =>
      obtain ⟨hu, ha, _, _, _⟩ := fetch_question_frame env chat fuel st none st1 heq
      split at h <;>
        · simp only [Option.some.injEq, Prod.mk.injEq] at h
          obtain ⟨_, hst⟩ := h
          subst hst
          exact ⟨by simpa [pushMsg] using hu, fun c => by simpa [pushMsg] using ha c⟩
  · -- fetch returned an item
    next q st1 heq =>
      obtain ⟨hu, ha, _, _, _⟩ := fetch_question_frame env chat fuel st (some q) st1 heq
      split at h
      · -- options.index raised ValueError
        simp only [Option.some.injEq, Prod.mk.injEq] at h
        obtain ⟨_, hst⟩ := h
        subst hst
        exact ⟨hu, ha⟩
      · -- a correct option id was found
        split at h
        · split at h <;>
            · simp only [Option.some.injEq, Prod.mk.injEq] at h
              obtain ⟨_, hst⟩ := h
              subst hst
              exact ⟨by simpa [pushMsg, pushPoll] using hu,
                fun c => by simpa [pushMsg, pushPoll] using ha c⟩
        · simp only [Option.some.injEq, Prod.mk.injEq] at h
          obtain ⟨_, hst⟩ := h
          subst hst
          exact ⟨hu, ha⟩

/-- One scheduler-loop body preserves `users` and the active key set. -/
theorem tickOne_frame (env : Env) (now fuel chat : Nat) (ad : ActiveData)
    (st st' : BotState) (h : tickOne env now fuel chat ad st = some st') :
    st'.users = st.users ∧
    (∀ c, (lookupA st'.activeUsers c).isSome = (lookupA st.activeUsers c).isSome) := by
  rw [tickOne] at h
  split at h
  · split at h
    · exact absurd h (by simp)
    · next st1 heq =>
        obtain ⟨hu, ha⟩ := send_poll_frame env chat fuel st true st1 heq
        simp only [Option.some.injEq] at h
        subst h
        exact ⟨by simpa [setLastPoll] using hu,
          fun c => by simpa [setLastPoll, lookupA_updateA_isSome] using ha c⟩
    · next st1 heq =>
        obtain ⟨hu, ha⟩ := send_poll_frame env chat fuel st false st1 heq
        simp only [Option.some.injEq] at h
        subst h
        exact ⟨hu, ha⟩
  · simp only [Option.some.injEq] at h
    subst h
    exact ⟨rfl, fun _ => rfl⟩

/-- A whole scheduler scan preserves `users` and the active key set. -/
theorem runTick_frame (env : Env) (now fuel : Nat) :
    ∀ (l : List (Nat × ActiveData)) (st st' : BotState),
      runTick env now fuel l st = some st' →
      st'.users = st.users ∧
      (∀ c, (lookupA st'.activeUsers c).isSome = (lookupA st.activeUsers c).isSome) := by
  intro l
  induction l with
  | nil =>
      intro st st' h
      simp only [runTick, Option.some.injEq] at h
      subst h
      exact ⟨rfl, fun _ => rfl⟩
  | cons p rest ih =>
      intro st st' h
      obtain ⟨chat, ad⟩ := p
      rw [runTick] at h
      split at h
      · exact absurd h (by simp)
      · next st1 heq =>
          obtain ⟨hu1, ha1⟩ := tickOne_frame env now fuel chat ad st st1 heq
          obtain ⟨hu2, ha2⟩ := ih st1 st' h
          exact ⟨hu2.trans hu1, fun c => (ha2 c).trans (ha1 c)⟩

/-- The broadcast loop only sends: registries are untouched, and the final
counts are the initial counts plus the number of accepting (resp.
rejecting) recipients in the list. -/
theorem broadcastLoop_spec (env : Env) (msg : String) :
    ∀ (l : List (Nat × UserData)) (s f : Nat) (st : BotState),
      (broadcastLoop env l msg (s, f, st)).1 = s + l.countP (fun p => env.sendOk p.1) ∧
      (broadcastLoop env l msg (s, f, st)).2.1 = f + l.countP (fun p => !(env.sendOk p.1)) ∧
      (broadcastLoop env l msg (s, f, st)).2.2.users = st.users ∧
      (broadcastLoop env l msg (s, f, st)).2.2.activeUsers = st.activeUsers := by
  intro l
  induction l with
  | nil => intro s f st; simp [broadcastLoop]
  | cons p rest ih =>
      intro s f st
      obtain ⟨chat, ud⟩ := p
      by_cases hs : env.sendOk chat
      · obtain ⟨ih1, ih2, ih3, ih4⟩ := ih (s + 1) f (pushMsg st chat msg)
        refine ⟨?_, ?_, ?_, ?_⟩
        · rw [show broadcastLoop env ((chat, ud) :: rest) msg (s, f, st) =
            broadcastLoop env rest msg (s + 1, f, pushMsg st chat msg) by
              simp [broadcastLoop, hs], ih1, List.countP_cons]
          simp [hs]
          omega
        · rw [show broadcastLoop env ((chat, ud) :: rest) msg (s, f, st) =
            broadcastLoop env rest msg (s + 1, f, pushMsg st chat msg) by
              simp [broadcastLoop, hs], ih2, List.countP_cons]
          simp [hs]
        · rw [show broadcastLoop env ((chat, ud) :: rest) msg (s, f, st) =
            broadcastLoop env rest msg (s + 1, f, pushMsg st chat msg) by
              simp [broadcastLoop, hs], ih3]
          simp [pushMsg]
        · rw [show broadcastLoop env ((chat, ud) :: rest) msg (s, f, st) =
            broadcastLoop env rest msg (s + 1, f, pushMsg st chat msg) by
              simp [broadcastLoop, hs], ih4]
          simp [pushMsg]
      · obtain ⟨ih1, ih2, ih3, ih4⟩ := ih s (f + 1) st
        refine ⟨?_, ?_, ?_, ?_⟩
        · rw [show broadcastLoop env ((chat, ud) :: rest) msg (s, f, st) =
            broadcastLoop env rest msg (s, f + 1, st) by simp [broadcastLoop, hs], ih1,
            List.countP_cons]
          simp [hs]
        · rw [show broadcastLoop env ((chat, ud) :: rest) msg (s, f, st) =
            broadcastLoop env rest msg (s, f + 1, st) by simp [broadcastLoop, hs], ih2,
            List.countP_cons]
          simp [hs]
          omega
        · rw [show broadcastLoop env ((chat, ud) :: rest) msg (s, f, st) =
            broadcastLoop env rest msg (s, f + 1, st) by simp [broadcastLoop, hs], ih3]
        · rw [show broadcastLoop env ((chat, ud) :: rest) msg (s, f, st) =
            broadcastLoop env rest msg (s, f + 1, st) by simp [broadcastLoop, hs], ih4]


/-- `stop` leaves `users` unchanged or updates one existing value in place. -/
theorem stopHandler_users_cases (env : Env) (chat : Nat) (st : BotState) :
    (stopHandler env chat st).users = st.users ∨
    ∃ asked, (stopHandler env chat st).users =
      updateA st.users chat (fun u => { u with askedQuestions := asked }) := by
  rw [stopHandler]
  split
  · split
    · split
      · right; exact ⟨_, rfl⟩
      · right; exact ⟨_, rfl⟩
    · left; rfl
  · split
    · left; rfl
    · left; rfl

/-- `stop` leaves `active_users` unchanged or deletes one entry. -/
theorem stopHandler_active_cases (env : Env) (chat : Nat) (st : BotState) :
    (stopHandler env chat st).activeUsers = st.activeUsers ∨
    (stopHandler env chat st).activeUsers = eraseA st.activeUsers chat := by
  rw [stopHandler]
  split
  · split
    · split
      · right; rfl
      · right; rfl
    · right; rfl
  · split
    · left; rfl
    · left; rfl

/-- `stop` never changes which `users` keys exist. -/
theorem stopHandler_users_keys (env : Env) (chat : Nat) (st : BotState) (c : Nat) :
    (lookupA (stopHandler env chat st).users c).isSome = (lookupA st.users c).isSome := by
  rcases stopHandler_users_cases env chat st with h | ⟨asked, h⟩
  · rw [h]
  · rw [h, lookupA_updateA]
    by_cases hc : c = chat <;> simp [hc]

/-- `stop` only ever removes `active_users` keys. -/
theorem stopHandler_active_keys (env : Env) (chat : Nat) (st : BotState) (c : Nat)
    (h : (lookupA (stopHandler env chat st).activeUsers c).isSome = true) :
    (lookupA st.activeUsers c).isSome = true := by
  rcases stopHandler_active_cases env chat st with he | he
  · rw [he] at h; exact h
  · rw [he, lookupA_eraseA] at h
    by_cases hc : c = chat
    · simp [hc] at h
    · simpa [hc] using h

/-- What the registry mutation of `start` does to lookups: other keys are
untouched, and the subscribing chat is afterwards present in both maps. -/
theorem startRegister_facts (chat uid : Nat) (un : Option String) (fn : String)
    (now : Nat) (st : BotState) :
    (∀ c, c ≠ chat →
      lookupA (startRegister chat uid un fn now st).users c = lookupA st.users c) ∧
    (lookupA (startRegister chat uid un fn now st).users chat).isSome = true ∧
    (∀ c, c ≠ chat →
      lookupA (startRegister chat uid un fn now st).activeUsers c = lookupA st.activeUsers c) ∧
    (∃ v, lookupA (startRegister chat uid un fn now st).activeUsers chat = some v) := by
  rw [startRegister]
  by_cases hlu : (lookupA st.users chat).isSome
  · rw [if_pos hlu]
    refine ⟨fun c hc => rfl, hlu, fun c hc => ?_,
      ⟨⟨uid, orUnknown un, fn, now, askedOf (lookupA st.users chat)⟩, ?_⟩⟩
    · show lookupA (setA st.activeUsers chat _) c = lookupA st.activeUsers c
      rw [lookupA_setA, if_neg hc]
    · show lookupA (setA st.activeUsers chat _) chat = _
      rw [lookupA_setA, if_pos rfl]
  · rw [if_neg hlu]
    refine ⟨fun c hc => ?_, ?_, fun c hc => ?_,
      ⟨⟨uid, orUnknown un, fn, now, []⟩, ?_⟩⟩
    · show lookupA (setA st.users chat _) c = lookupA st.users c
      rw [lookupA_setA, if_neg hc]
    · show (lookupA (setA st.users chat _) chat).isSome = true
      rw [lookupA_setA, if_pos rfl]
      rfl
    · show lookupA (setA st.activeUsers chat _) c = lookupA st.activeUsers c
      rw [lookupA_setA, if_neg hc]
    · show lookupA (setA st.activeUsers chat _) chat = _
      rw [lookupA_setA, if_pos rfl]

/-- `broadcast_message` never mutates either registry. -/
theorem broadcast_message_registry (appReady : Bool) (env : Env) (m : Option String)
    (t : Option Nat) (st : BotState) :
    ((broadcast_message appReady env m t st).2).users = st.users ∧
    ((broadcast_message appReady env m t st).2).activeUsers = st.activeUsers := by
  cases m with
  | none => exact ⟨rfl, rfl⟩
  | some msg =>
      simp only [broadcast_message]
      split
      · exact ⟨rfl, rfl⟩
      · split
        · exact ⟨rfl, rfl⟩
        · cases t with
          | some chat =>
              by_cases hs : env.sendOk chat
              · simp [hs, pushMsg]
              · simp [hs]
          | none =>
              obtain ⟨-, -, h3, h4⟩ := broadcastLoop_spec env msg st.users 0 0 st
              rcases hbl : broadcastLoop env st.users msg (0, 0, st) with ⟨s, f, st1⟩
              rw [hbl] at h3 h4
              simp only [hbl]
              exact ⟨h3, h4⟩

/-- `reset_user_questions` replaces history values but never changes which
keys exist in either registry. -/
theorem reset_user_questions_keys (t : Option Nat) (st : BotState) (c : Nat) :
    (lookupA ((reset_user_questions t st).2).users c).isSome = (lookupA st.users c).isSome ∧
    (lookupA ((reset_user_questions t st).2).activeUsers c).isSome =
      (lookupA st.activeUsers c).isSome := by
  cases t with
  | none =>
      constructor
      · show (lookupA (clearAllU st.users) c).isSome = _
        rw [lookupA_clearAllU]
        cases lookupA st.users c <;> rfl
      · show (lookupA (clearAllA st.activeUsers) c).isSome = _
        rw [lookupA_clearAllA]
        cases lookupA st.activeUsers c <;> rfl
  | some chat =>
      rw [reset_user_questions]
      split
      · split
        · constructor
          · show (lookupA (updateA st.users chat _) c).isSome = _
            rw [lookupA_updateA]
            by_cases hc : c = chat <;> simp [hc]
          · show (lookupA (updateA st.activeUsers chat _) c).isSome = _
            rw [lookupA_updateA]
            by_cases hc : c = chat <;> simp [hc]
        · constructor
          · show (lookupA (updateA st.users chat _) c).isSome = _
            rw [lookupA_updateA]
            by_cases hc : c = chat <;> simp [hc]
          · rfl
      · exact ⟨rfl, rfl⟩

/-- C10: every modelled operation (subscribe, unsubscribe, scheduler tick,
fetch, broadcast, reset, webhook) preserves the registry shape: a `users`
key, once present, stays present, and the `active_users` keys remain a
subset of the `users` keys — unsubscribe only removes the recipient from
the active map, never from `users`. -/
theorem registry_shape_invariant (env : Env) (fuel : Nat) (op : Op) (st st' : BotState)
    (h : step env fuel op st = some st') :
    (∀ c, (lookupA st.users c).isSome = true → (lookupA st'.users c).isSome = true) ∧
    ((∀ c, (lookupA st.activeUsers c).isSome = true → (lookupA st.users c).isSome = true) →
      (∀ c, (lookupA st'.activeUsers c).isSome = true → (lookupA st'.users c).isSome = true)) := by
  cases op with
  | opStart chat uid un fn now =>
      simp only [step] at h
      rw [startHandler] at h
      obtain ⟨f1, f2, f3, f4⟩ := startRegister_facts chat uid un fn now st
      have hcore : ∀ st2 : BotState,
          st2.users = (startRegister chat uid un fn now st).users →
          (∀ c, (lookupA st2.activeUsers c).isSome =
            (lookupA (startRegister chat uid un fn now st).activeUsers c).isSome) →
          (∀ c, (lookupA st.users c).isSome = true → (lookupA st2.users c).isSome = true) ∧
          ((∀ c, (lookupA st.activeUsers c).isSome = true →
              (lookupA st.users c).isSome = true) →
            (∀ c, (lookupA st2.activeUsers c).isSome = true →
              (lookupA st2.users c).isSome = true)) := by
        intro st2 hu ha
        constructor
        · intro c hc
          rw [hu]
          by_cases hcc : c = chat
          · subst hcc; exact f2
          · rw [f1 c hcc]; exact hc
        · intro hsub c hac
          rw [hu]
          rw [ha c] at hac
          by_cases hcc : c = chat
          · subst hcc; exact f2
          · rw [f3 c hcc] at hac
            rw [f1 c hcc]
            exact hsub c hac
      split at h
      · split at h
        · exact absurd h (by simp)
        · next b st2 heq =>
            simp only [Option.some.injEq] at h
            subst h
            obtain ⟨hu, ha⟩ := send_poll_frame env chat fuel _ b st2 heq
            exact hcore st2 (by simpa [pushMsg] using hu) (fun c => by simpa [pushMsg] using ha c)
      · simp only [Option.some.injEq] at h
        subst h
        exact hcore _ rfl (fun c => rfl)
  | opStop chat =>
      simp only [step, Option.some.injEq] at h
      subst h
      constructor
      · intro c hc
        rw [stopHandler_users_keys env chat st c]; exact hc
      · intro hsub c hac
        have h1 := stopHandler_active_keys env chat st c hac
        rw [stopHandler_users_keys env chat st c]
        exact hsub c h1
  | opTick now =>
      simp only [step, poll_scheduler] at h
      obtain ⟨hu, ha⟩ := runTick_frame env now fuel st.activeUsers st st' h
      constructor
      · intro c hc; rw [hu]; exact hc
      · intro hsub c hac
        rw [hu]
        rw [ha c] at hac
        exact hsub c hac
  | opFetch chat =>
      simp only [step] at h
      rcases hf : fetch_question env chat fuel st with _ | ⟨r, st2⟩
      · rw [hf] at h; exact absurd h (by simp)
      · rw [hf] at h
        simp only [Option.map_some', Option.some.injEq] at h
        obtain ⟨hu, ha, -, -, -⟩ := fetch_question_frame env chat fuel st r st2 hf
        have hst : st2 = st' := h
        subst hst
        constructor
        · intro c hc; rw [hu]; exact hc
        · intro hsub c hac
          rw [hu]
          rw [ha c] at hac
          exact hsub c hac
  | opBroadcast m t =>
      simp only [step, Option.some.injEq] at h
      subst h
      obtain ⟨hu, ha⟩ := broadcast_message_registry true env m t st
      constructor
      · intro c hc; rw [hu]; exact hc
      · intro hsub c hac
        rw [hu]
        rw [ha] at hac
        exact hsub c hac
  | opReset t =>
      simp only [step, Option.some.injEq] at h
      subst h
      constructor
      · intro c hc
        rw [(reset_user_questions_keys t st c).1]; exact hc
      · intro hsub c hac
        rw [(reset_user_questions_keys t st c).1]
        rw [(reset_user_questions_keys t st c).2] at hac
        exact hsub c hac
  | opWebhook b =>
      simp only [step, Option.some.injEq] at h
      subst h
      cases b with
      | ok u => exact ⟨fun c hc => hc, fun hsub c hac => hsub c hac⟩
      | malformed => exact ⟨fun c hc => hc, fun hsub c hac => hsub c hac⟩

/-- Witness for the registry-shape invariant: unsubscribing chat 1 in the
base state keeps chat 1 a `users` key. -/
theorem registry_shape_invariant_witness :
    (lookupA (stopHandler envQ7 1 st0).users 1).isSome = true :=
  (registry_shape_invariant envQ7 1 (.opStop 1) st0 (stopHandler envQ7 1 st0) rfl).1 1 rfl

/-- When the upstream answers the exhaustion sentinel on the next GET, the
very first attempt of the loop POSTs one reset and returns `None`. -/
theorem fetchLoop_exhausted_first (env : Env) (chat : Nat) (st : BotState)
    (hx : env.up st.upCalls = .exhausted) (n : Nat) :
    fetchLoop env chat (n + 1) st =
      (some none, reset_questions { st with upCalls := st.upCalls + 1 }) := by
  simp only [fetchLoop, hx]

/-- Against an always-exhausted upstream a `fetch_question` call returns on
its first attempt: one upstream GET, one reset POST, no item, any fuel. -/
theorem fetch_exhausted_spec (env : Env) (hup : ∀ n, env.up n = .exhausted)
    (chat fuel : Nat) (st : BotState) :
    fetch_question env chat (fuel + 1) st =
      some (none, reset_questions { st with upCalls := st.upCalls + 1 }) := by
  rw [fetch_question, show RETRY_ATTEMPTS = 2 + 1 from rfl,
    fetchLoop_exhausted_first env chat st (hup st.upCalls) 2]

/-- C5: with an upstream that always answers the exhaustion sentinel, a
single `fetch_question` call makes exactly one upstream GET, calls the
reset endpoint exactly once, returns no item instead of retrying in place,
terminates at every positive fuel, and its outcome is the same whether the
reset POST succeeds or fails (the failure is swallowed inside
`reset_questions`, never propagated). -/
theorem fetch_exhaustion_terminal (up : Nat → UpResp) (hup : ∀ n, up n = .exhausted)
    (sendOk : Nat → Bool) (resetOk : Bool) (chat fuel : Nat) (st : BotState) :
    fetch_question ⟨up, sendOk, resetOk⟩ chat (fuel + 1) st =
      some (none, reset_questions { st with upCalls := st.upCalls + 1 }) :=
  fetch_exhausted_spec ⟨up, sendOk, resetOk⟩ hup chat fuel st

/-- Witness for C5 at the concrete exhausted upstream and base state. -/
theorem fetch_exhaustion_terminal_witness :
    fetch_question envExh 1 1 st0 =
      some (none, reset_questions { st0 with upCalls := st0.upCalls + 1 }) :=
  fetch_exhaustion_terminal (fun _ => .exhausted) (fun _ => rfl) (fun _ => true) true 1 0 st0

/-- C3 (code bug): resetting an unknown chat id mutates nothing but the
response is 500 — the `HTTPException(404)` raised at line 479 sits inside
the `try` whose blanket `except Exception` (line 487) catches it and
re-raises it as `HTTPException(500)`. -/
theorem reset_unknown_chat_500 (st : BotState) (chat : Nat)
    (h : lookupA st.users chat = none) :
    reset_user_questions (some chat) st = (500, st) := by
  simp only [reset_user_questions, h]

/-- Witness for the unknown-chat reset at a concrete state: chat 2 is not
registered in `st0`. -/
theorem reset_unknown_chat_500_witness :
    reset_user_questions (some 2) st0 = (500, st0) :=
  reset_unknown_chat_500 st0 2 rfl

/-- C7 counterexample: a `POST /webhook` body that fails to decode is
answered with status 500, not the 200 the claim requires. -/
theorem webhook_malformed_not_200 :
    receive_update true WebhookBody.malformed st0 = (500, st0) ∧ (500 : Nat) ≠ 200 :=
  ⟨rfl, by decide⟩

/-- C7 amended: a decodable body is acknowledged 200 with the update only
enqueued (no processing before responding); a decode failure is caught —
the process does not crash — and answered 500 with the state unchanged. -/
theorem webhook_responses (st : BotState) (u : Nat) :
    receive_update true (WebhookBody.ok u) st =
      (200, { st with updateQueue := st.updateQueue ++ [u] }) ∧
    receive_update true WebhookBody.malformed st = (500, st) :=
  ⟨rfl, rfl⟩

/-- Against an upstream that always fails, every round of the attempt loop
burns its whole budget: `n` GETs, `n` sleeps of `RETRY_DELAY`, no return. -/
theorem fetchLoop_allErr (env : Env) (hup : ∀ n, env.up n = .httpError) (chat : Nat) :
    ∀ (n : Nat) (st : BotState),
      fetchLoop env chat n st =
        (none, { st with upCalls := st.upCalls + n, slept := st.slept + RETRY_DELAY * n }) := by
  intro n
  induction n with
  | zero => intro st; simp [fetchLoop]
  | succ n ih =>
      intro st
      have h1 : st.upCalls + 1 + n = st.upCalls + (n + 1) := by omega
      have h2 : st.slept + RETRY_DELAY + RETRY_DELAY * n = st.slept + RETRY_DELAY * (n + 1) := by
        simp only [RETRY_DELAY]
        omega
      simp only [fetchLoop, hup, ih, h1, h2]

/-- Against an always-failing upstream, `fetch_question` for a chat present
in `active_users` never returns: each exhausted budget clears the history
and restarts the call with a fresh budget, at every fuel. -/
theorem fetch_allErr_diverges (env : Env) (hup : ∀ n, env.up n = .httpError) (chat : Nat) :
    ∀ (fuel : Nat) (st : BotState), (lookupA st.activeUsers chat).isSome = true →
      fetch_question env chat fuel st = none := by
  intro fuel
  induction fuel with
  | zero => intro st _; rfl
  | succ fuel ih =>
      intro st hact
      rw [fetch_question]
      split
      · next st1 r1 heq =>
          rw [fetchLoop_allErr env hup chat RETRY_ATTEMPTS st] at heq
          exact absurd heq (by simp)
      · next st1 heq =>
          rw [fetchLoop_allErr env hup chat RETRY_ATTEMPTS st] at heq
          have hst1 : ({ st with
              upCalls := st.upCalls + RETRY_ATTEMPTS,
              slept := st.slept + RETRY_DELAY * RETRY_ATTEMPTS } : BotState) = st1 := by
            simpa using heq
          subst hst1
          have hact1 : (lookupA ({ st with
              upCalls := st.upCalls + RETRY_ATTEMPTS,
              slept := st.slept + RETRY_DELAY * RETRY_ATTEMPTS } : BotState).activeUsers
                chat).isSome = true := hact
          rw [if_pos hact1]
          exact ih _ (by simpa [clearAsked, lookupA_updateA_isSome] using hact)

/-- C2 amended: `fetch_question` is not bounded by 3 attempts and does not
always terminate.  Against an always-failing upstream: for a chat in
`active_users`, exhausting the 3-attempt budget — here purely due to
transport failures, not duplicates — clears the chat's history and
recursively restarts with a fresh budget (line 99), so the call never
returns at any fuel; only for a chat not in `active_users` does it return
`None` after a single 3-attempt round with a 5-unit sleep per failure. -/
theorem fetch_retry_behaviour (env : Env) (hup : ∀ n, env.up n = .httpError) (chat : Nat) :
    (∀ fuel st, (lookupA st.activeUsers chat).isSome = true →
      fetch_question env chat fuel st = none) ∧
    (∀ st, (lookupA st.activeUsers chat).isSome = false →
      fetch_question env chat 1 st =
        some (none, { st with upCalls := st.upCalls + RETRY_ATTEMPTS,
                              slept := st.slept + RETRY_DELAY * RETRY_ATTEMPTS })) := by
  constructor
  · exact fetch_allErr_diverges env hup chat
  · intro st hact
    rw [fetch_question]
    split
    · next st1 r1 heq =>
        rw [fetchLoop_allErr env hup chat RETRY_ATTEMPTS st] at heq
        exact absurd heq (by simp)
    · next st1 heq =>
        rw [fetchLoop_allErr env hup chat RETRY_ATTEMPTS st] at heq
        have hst1 : ({ st with
            upCalls := st.upCalls + RETRY_ATTEMPTS,
            slept := st.slept + RETRY_DELAY * RETRY_ATTEMPTS } : BotState) = st1 := by
          simpa using heq
        subst hst1
        have hact1 : ¬ (lookupA ({ st with
            upCalls := st.upCalls + RETRY_ATTEMPTS,
            slept := st.slept + RETRY_DELAY * RETRY_ATTEMPTS } : BotState).activeUsers
              chat).isSome = true := by
          simp [hact]
        rw [if_neg hact1]

/-- Witness for the retry behaviour: in `st0` chat 1 is active (the call
never returns, shown at fuel 3) while chat 2 is not (one round of three
failed attempts, then `None`). -/
theorem fetch_retry_behaviour_witness :
    fetch_question envErr 1 3 st0 = none ∧
    fetch_question envErr 2 1 st0 =
      some (none, { st0 with upCalls := st0.upCalls + RETRY_ATTEMPTS,
                             slept := st0.slept + RETRY_DELAY * RETRY_ATTEMPTS }) :=
  ⟨(fetch_retry_behaviour envErr (fun _ => rfl) 1).1 3 st0 rfl,
   (fetch_retry_behaviour envErr (fun _ => rfl) 2).2 st0 rfl⟩

/-- C2 counterexample: after three transport failures the upstream serves a
fresh item; `fetch_question` then makes a fourth upstream attempt, has
cleared the history (an exhaustion caused purely by transport failures,
not duplicates), and returns that item instead of `None`. -/
theorem fetch_retry_budget_counterexample :
    (fetch_question env2 1 2 st0).map
      (fun r => (Option.map Question.qid r.1, r.2.upCalls,
        (lookupA r.2.activeUsers 1).map ActiveData.askedQuestions)) =
      some (some 7, 4, some [7]) := by
  rfl

/-- C4 amended: for a chat in `active_users`, a returned item's id is
absent from the history it was checked against and is appended to that
history by the fetcher before returning (on return the history is
`l ++ [id]` with `id ∉ l`); but the checked history may be the post-clear
one rather than the history at the time of the call, and a chat not in
`active_users` gets no dedup check or recording at all. -/
theorem fetch_dedup_records_id (env : Env) (chat fuel : Nat) (st : BotState)
    (q : Question) (st' : BotState)
    (hact : (lookupA st.activeUsers chat).isSome = true)
    (h : fetch_question env chat fuel st = some (some q, st')) :
    ∃ ad l, lookupA st'.activeUsers chat = some ad ∧
      ad.askedQuestions = l ++ [q.qid] ∧ q.qid ∉ l :=
  fetch_question_item_spec env chat fuel st q st' hact h

/-- Witness for the dedup/recording behaviour: fetching the fresh item `q7`
from the base state appends 7 to chat 1's history. -/
theorem fetch_dedup_records_id_witness :
    ∃ ad l,
      lookupA (⟨[(1, ud5)], [(1, ⟨10, "u", "U", 0, [5, 7]⟩)], [], [], 0, 1, 0, []⟩ :
        BotState).activeUsers 1 = some ad ∧
      ad.askedQuestions = l ++ [q7.qid] ∧ q7.qid ∉ l :=
  fetch_dedup_records_id envQ7 1 1 st0 q7
    ⟨[(1, ud5)], [(1, ⟨10, "u", "U", 0, [5, 7]⟩)], [], [], 0, 1, 0, []⟩ rfl rfl

/-- C4 counterexample: with an upstream that always serves item 5, chat 1's
retry budget exhausts on duplicates, the history (which was `[5]` at call
time) is cleared, and the call then returns the item with id 5 — an id
that WAS in the recipient's `asked_questions` at the time of the call. -/
theorem fetch_dedup_counterexample :
    (fetch_question envQ5 1 2 st0).map (fun r => Option.map Question.qid r.1) =
      some (some 5) ∧
    (lookupA st0.activeUsers 1).map ActiveData.askedQuestions = some [5] ∧
    5 ∈ ([5] : List Nat) :=
  ⟨rfl, rfl, by decide⟩

/-- C6 amended: a payload whose `answer` matches no option is NOT a fetch
failure — `fetch_question` returns the item, with its id already recorded —
the mismatch only surfaces inside `send_poll_to_user`, where
`options.index` raises `ValueError`, the blanket handler catches it, no
poll is delivered, and the call completes normally, so the scheduler still
treats the dispatch attempt as handled. -/
theorem mismatch_is_dispatch_stage (env : Env) (chat fuel : Nat) (st : BotState)
    (q : Question) (st' : BotState)
    (hf : fetch_question env chat fuel st = some (some q, st'))
    (hmiss : idxOf? q.options q.answer = none) :
    send_poll_to_user env chat fuel st = some (true, st') ∧
    st'.sentPolls = st.sentPolls := by
  constructor
  · simp [send_poll_to_user, hf, hmiss]
  · exact (fetch_question_frame env chat fuel st (some q) st' hf).2.2.1

/-- Witness: sending `qBad` (answer "zz" not among its options) to chat 1
completes without a poll, the fetch result standing. -/
theorem mismatch_is_dispatch_stage_witness :
    send_poll_to_user envBad 1 1 st0 =
      some (true, ⟨[(1, ud5)], [(1, ⟨10, "u", "U", 0, [5, 9]⟩)], [], [], 0, 1, 0, []⟩) ∧
    (⟨[(1, ud5)], [(1, ⟨10, "u", "U", 0, [5, 9]⟩)], [], [], 0, 1, 0, []⟩ :
      BotState).sentPolls = st0.sentPolls :=
  mismatch_is_dispatch_stage envBad 1 1 st0 qBad _ rfl rfl

/-- C6 counterexample: with the mismatched payload `qBad`, `fetch_question`
returns the item (id 9) rather than a failure, its id is recorded into the
recipient's history, and the subsequent dispatch delivers no poll yet
returns normally. -/
theorem mismatch_counterexample :
    (fetch_question envBad 1 1 st0).map (fun r => Option.map Question.qid r.1) =
      some (some 9) ∧
    (send_poll_to_user envBad 1 1 st0).map
      (fun r => (r.1, r.2.sentPolls,
        (lookupA r.2.activeUsers 1).map ActiveData.askedQuestions)) =
      some (true, [], some [5, 9]) :=
  ⟨rfl, rfl⟩

/-- C1 amended: the scheduler stamps `last_poll_time = now` (line 153)
after every dispatch attempt that returns normally, including attempts
whose fetch produced no item: with an exhausted upstream (fetch returns
`None`, no poll is delivered), a due recipient's `last_poll_time` is still
advanced to `now`, so that recipient is NOT due again on the next tick. -/
theorem scheduler_stamps_failed_dispatch (env : Env) (chat now fuel : Nat)
    (ad : ActiveData) (st : BotState)
    (hact : st.activeUsers = [(chat, ad)])
    (hup : ∀ n, env.up n = .exhausted)
    (hsend : env.sendOk chat = true)
    (hdue : POLL_INTERVAL ≤ now - ad.lastPollTime) :
    ∃ st', poll_scheduler env now (fuel + 1) st = some st' ∧
      lookupA st'.activeUsers chat = some { ad with lastPollTime := now } ∧
      st'.sentPolls = st.sentPolls ∧
      st'.resetCalls = st.resetCalls + 1 := by
  have hfetch := fetch_exhausted_spec env hup chat fuel st
  have hsp : send_poll_to_user env chat (fuel + 1) st =
      some (true, pushMsg (reset_questions { st with upCalls := st.upCalls + 1 })
        chat unableText) := by
    simp [send_poll_to_user, hfetch, hsend]
  refine ⟨setLastPoll (pushMsg (reset_questions { st with upCalls := st.upCalls + 1 })
      chat unableText) chat now, ?_, ?_, ?_, ?_⟩
  · simp [poll_scheduler, hact, runTick, tickOne, hdue, hsp]
  · simp [setLastPoll, pushMsg, reset_questions, hact, updateA, lookupA]
  · rfl
  · rfl

/-- Witness: chat 1 is due at `now = 3600` in the base state; the tick with
the exhausted upstream advances its `last_poll_time` without any poll. -/
theorem scheduler_stamps_failed_dispatch_witness :
    ∃ st', poll_scheduler envExh 3600 1 st0 = some st' ∧
      lookupA st'.activeUsers 1 = some { ad5 with lastPollTime := 3600 } ∧
      st'.sentPolls = st0.sentPolls ∧
      st'.resetCalls = st0.resetCalls + 1 :=
  scheduler_stamps_failed_dispatch envExh 1 3600 0 ad5 st0 rfl (fun _ => rfl) rfl (by decide)

/-- C1 counterexample: one due active recipient and an exhausted upstream:
the tick delivers no poll (the fetch returned `None` — `sentPolls` stays
empty, one reset fired) yet `last_poll_time` is advanced to `now`, so the
recipient is no longer due on the next tick. -/
theorem scheduler_failed_dispatch_counterexample :
    poll_scheduler envExh 3600 1 st0 =
      some ⟨[(1, ud5)], [(1, ⟨10, "u", "U", 3600, [5]⟩)], [(1, unableText)], [], 1, 1, 0, []⟩ :=
  rfl

/-- C8 amended: `stop` followed by the registry mutation of `start`
preserves `asked_questions` exactly (in both maps) and resets
`last_poll_time` to the time of the second subscribe; the immediate
dispatch that the full `start` handler then performs may further mutate
the history (appending the newly delivered id, or clearing it on retry
exhaustion), which is what the counterexample exhibits. -/
theorem stop_start_registry_roundtrip (env : Env) (chat uid : Nat) (un : Option String)
    (fn : String) (t2 : Nat) (st : BotState) (ad : ActiveData)
    (ha : lookupA st.activeUsers chat = some ad)
    (hu : (lookupA st.users chat).isSome = true) :
    lookupA (startRegister chat uid un fn t2 (stopHandler env chat st)).activeUsers chat =
      some ⟨uid, orUnknown un, fn, t2, ad.askedQuestions⟩ ∧
    (lookupA (startRegister chat uid un fn t2 (stopHandler env chat st)).users chat).map
      UserData.askedQuestions = some ad.askedQuestions := by
  obtain ⟨ud, hud⟩ := Option.isSome_iff_exists.mp hu
  have hstopU : (stopHandler env chat st).users =
      updateA st.users chat (fun u => { u with askedQuestions := ad.askedQuestions }) := by
    simp only [stopHandler, ha, hud]
    cases hs : env.sendOk chat <;> simp [hs, pushMsg, setUsersAsked]
  have hlu2 : lookupA (stopHandler env chat st).users chat =
      some { ud with askedQuestions := ad.askedQuestions } := by
    rw [hstopU, lookupA_updateA, if_pos rfl, hud]
    rfl
  have hisSome : (lookupA (stopHandler env chat st).users chat).isSome = true := by
    rw [hlu2]; rfl
  constructor
  · rw [startRegister, if_pos hisSome]
    show lookupA (setA (stopHandler env chat st).activeUsers chat _) chat = _
    rw [lookupA_setA, if_pos rfl, hlu2]
    rfl
  · rw [startRegister, if_pos hisSome]
    show (lookupA (stopHandler env chat st).users chat).map UserData.askedQuestions = _
    rw [hlu2]
    rfl

/-- Witness: the round trip on the base state (chat 1, history `[5]`)
reinstates the same history with `last_poll_time = 50`. -/
theorem stop_start_registry_roundtrip_witness :
    lookupA (startRegister 1 10 (some "u") "U" 50 (stopHandler envQ7 1 st0)).activeUsers 1 =
      some ⟨10, orUnknown (some "u"), "U", 50, ad5.askedQuestions⟩ ∧
    (lookupA (startRegister 1 10 (some "u") "U" 50 (stopHandler envQ7 1 st0)).users 1).map
      UserData.askedQuestions = some ad5.askedQuestions :=
  stop_start_registry_roundtrip envQ7 1 10 (some "u") "U" 50 st0 ad5 rfl rfl

/-- C8 counterexample: chat 1's history is `[5]` beforehand; after `stop`
followed by the full `start` handler — whose immediate dispatch fetches
and delivers item 7 — the history is `[5, 7]`, not the pre-round-trip
value `[5]`. -/
theorem stop_start_roundtrip_counterexample :
    (startHandler envQ7 1 10 (some "u") "U" 50 1 (stopHandler envQ7 1 st0)).map
      (fun st => (lookupA st.activeUsers 1).map ActiveData.askedQuestions) =
      some (some [5, 7]) ∧
    some (some [5, 7]) ≠ some (some ([5] : List Nat)) :=
  ⟨rfl, by decide⟩

/-- In any list, the entries accepted by a Boolean predicate and those
rejected by it together account for the whole list. -/
theorem countP_total (p : α → Bool) :
    ∀ (l : List α), l.countP p + l.countP (fun a => !(p a)) = l.length := by
  intro l
  induction l with
  | nil => simp
  | cons a rest ih =>
      by_cases hp : p a <;> simp [List.countP_cons, hp] <;> omega

/-- C9: `POST /broadcast` without a message answers 400 and mutates
nothing; with a non-empty message and no target it attempts one send per
`users` key (Active and Dormant alike), survives individual delivery
failures, and reports `success` = number of accepting recipients and
`failed` = number of rejecting recipients, with
`success + failed` = number of known recipients. -/
theorem broadcast_counts (env : Env) (st : BotState) (msg : String) (hmsg : msg ≠ "")
    (t : Option Nat) :
    broadcast_message true env none t st = (.badRequest400, st) ∧
    (broadcast_message true env (some msg) none st).1 =
      .completed (st.users.countP (fun p => env.sendOk p.1))
        (st.users.countP (fun p => !(env.sendOk p.1))) ∧
    st.users.countP (fun p => env.sendOk p.1) +
      st.users.countP (fun p => !(env.sendOk p.1)) = st.users.length := by
  refine ⟨rfl, ?_, countP_total _ st.users⟩
  obtain ⟨h1, h2, -, -⟩ := broadcastLoop_spec env msg st.users 0 0 st
  simp [broadcast_message, hmsg, h1, h2]

/-- Witness matching the spec's example: three known recipients of which
chat 2 rejects delivery yield success 2, failed 1. -/
theorem broadcast_counts_witness :
    broadcast_message true envRej2 none none st3 = (.badRequest400, st3) ∧
    (broadcast_message true envRej2 (some "hi") none st3).1 =
      .completed (st3.users.countP (fun p => envRej2.sendOk p.1))
        (st3.users.countP (fun p => !(envRej2.sendOk p.1))) ∧
    st3.users.countP (fun p => envRej2.sendOk p.1) +
      st3.users.countP (fun p => !(envRej2.sendOk p.1)) = st3.users.length :=
  broadcast_counts envRej2 st3 "hi" (by decide) none
